import Mathlib

/-!
Verification development for the Jira Sprint Dashboard client script
(`script.js`).  The script's functions are embedded as pure Lean
functions: the DOM controls and the single Chart.js instance become an
explicit `DashState`, and the observable actions of a call (clearing or
destroying the chart, constructing a new chart, `console.error`, writing
the error paragraph into the chart container) become an explicit effect
trace.  JavaScript numbers are modelled as exact rationals, JSON objects
as insertion-ordered association lists, and nullable series entries as
`Option ℚ`.
-/

/-- A per-series chart payload.  A sprint-record bundle carries
`earnedHours`, `actualCost` and `dailyPlannedHours`; the reserved
`"EV/PV"` record's `overall` bundle instead carries `earnedValue` and
`plannedValue`.  Absent properties default like absent JS properties:
`dailyPlannedHours` may be missing (the script guards it with `|| []`),
and series entries may be `null` (`none`). -/
structure SeriesBundle where
  earnedHours : List (Option ℚ) := []
  actualCost : List (Option ℚ) := []
  dailyPlannedHours : Option (List (Option ℚ)) := none
  earnedValue : List (Option ℚ) := []
  plannedValue : List (Option ℚ) := []
  deriving DecidableEq, Repr

/-- One record of the top-level `data.json` document: `dates`, `users`
(possibly absent, the script calls `populateUserFilter(sprintData.users)`
whose parameter defaults to `[]`), and the `charts` mapping from a user
key to its bundle. -/
structure SprintRecord where
  dates : List String := []
  users : Option (List String) := none
  charts : List (String × SeriesBundle) := []
  deriving DecidableEq, Repr

/-- JS object property lookup on a string-keyed object modelled as an
insertion-ordered association list. -/
def jsGet {β : Type} (m : List (String × β)) (k : String) : Option β :=
  (m.find? (fun p => p.1 == k)).map (fun p => p.2)

/-- Font descriptor appearing in the chart options (`size`, optional
`weight`). -/
structure FontSpec where
  size : ℕ
  weight : Option String := none
  deriving DecidableEq, Repr

/-- A title block of the chart options (`display`, `text`, `color`,
`font`). -/
structure TitleSpec where
  display : Bool
  text : String
  color : String
  font : FontSpec
  deriving DecidableEq, Repr

/-- The tooltip block of the chart options. -/
structure TooltipSpec where
  backgroundColor : String
  titleColor : String
  bodyColor : String
  borderColor : String
  borderWidth : ℕ
  padding : ℕ
  displayColors : Bool
  boxPadding : ℕ
  deriving DecidableEq, Repr

/-- Tick styling of an axis. -/
structure AxisTicks where
  color : String
  deriving DecidableEq, Repr

/-- Grid styling of an axis. -/
structure GridSpec where
  color : String
  deriving DecidableEq, Repr

/-- The x scale of the options: the source sets only `ticks` and `grid`
on it. -/
structure XScale where
  ticks : AxisTicks
  grid : GridSpec
  deriving DecidableEq, Repr

/-- The y scale of the options.  The source object literal carries
`type`, `position`, `min`, `title`, `ticks` and `grid`; it has no upper
bound property, which the optional `max` field records as `none`. -/
structure YScale where
  type : String
  position : String
  min : ℚ
  max : Option ℚ := none
  title : TitleSpec
  ticks : AxisTicks
  grid : GridSpec
  deriving DecidableEq, Repr

/-- The legend block (`labels: { color, font: { size } }`). -/
structure LegendSpec where
  labelsColor : String
  labelsFontSize : ℕ
  deriving DecidableEq, Repr

/-- The full options object returned by `chartOptions`. -/
structure ChartOptionsCfg where
  responsive : Bool
  maintainAspectRatio : Bool
  interactionMode : String
  interactionIntersect : Bool
  title : TitleSpec
  legend : LegendSpec
  tooltip : TooltipSpec
  x : XScale
  y : YScale
  deriving DecidableEq, Repr

/-- One entry of the `datasets` array handed to the chart library.
Optional fields default to absent, matching properties the source omits
on a given dataset literal.  `steppped` mirrors the source's misspelled
`steppped: true` property on the planned-hours dataset. -/
structure DatasetCfg where
  label : String
  data : List (Option ℚ)
  borderColor : String
  backgroundColor : Option String := none
  fill : Bool := false
  tension : Option ℚ := none
  borderDash : Option (List ℕ) := none
  pointRadius : Option ℕ := none
  steppped : Bool := false
  deriving DecidableEq, Repr

/-- The argument of `new Chart(...)`: chart kind, labels, datasets and
options. -/
structure ChartConfig where
  type : String
  labels : List String
  datasets : List DatasetCfg
  options : ChartOptionsCfg
  deriving DecidableEq, Repr

/-- A chart-library instance.  `destroyed` records that `destroy()` was
called on it (the script sometimes destroys without nulling
`state.burnupChart`, so a destroyed instance can stay referenced);
`canvasCleared` records a `clear()` call, which blanks the canvas but
leaves the instance live. -/
structure ChartInstance where
  config : ChartConfig
  destroyed : Bool := false
  canvasCleared : Bool := false
  deriving DecidableEq, Repr

/-- A `<select>` control: its `<option>` list as (value, textContent)
pairs and its current `value` (the empty string when no option is
selected). -/
structure SelectState where
  options : List (String × String) := []
  selected : String := ""
  deriving DecidableEq, Repr

/-- Observable actions of one call into the script: chart lifecycle
operations on the shared canvas, `console.error` reports, and writing
the error paragraph into the chart container. -/
inductive Effect where
  | clearChart : Effect
  | destroyChart : Effect
  | createChart : ChartConfig → Effect
  | consoleError : String → Effect
  | setContainerHTML : String → Effect
  deriving DecidableEq, Repr

/-- The mutable state of the page: the `state` object of the script
(`burnupChart`, `fullData`) together with the DOM pieces the script
reads and writes (the view selector's value, the sprint-controls
display style, the two filter selects, and the chart container's
innerHTML override). -/
structure DashState where
  burnupChart : Option ChartInstance := none
  fullData : List (String × SprintRecord) := []
  viewSelector : String := "sprint"
  sprintControlsDisplay : String := ""
  sprintFilter : SelectState := {}
  userFilter : SelectState := {}
  chartContainerHTML : Option String := none
  deriving DecidableEq, Repr

/-- The first maximal run of decimal digits in a character list, the
match of the source's regular expression `/\d+/`. -/
def firstDigitRun : List Char → Option (List Char)
  | [] => none
  | c :: cs => if c.isDigit then some (c :: cs.takeWhile (fun d => d.isDigit)) else firstDigitRun cs

/-- The sort key of `populateSprintFilter`:
`parseInt(name.match(/\d+/)?.[0] || -1)` — the integer value of the
first digit run, `-1` when the name contains no digit. -/
def sprintSortKey (s : String) : Int :=
  match firstDigitRun s.toList with
  | some ds => Int.ofNat (ds.foldl (fun acc c => acc * 10 + (c.toNat - 48)) 0)
  | none => -1

/-- The comparator `(a, b) => numA - numB` of `populateSprintFilter`,
as the boolean "a sorts no later than b" relation. -/
def sprintLe (a b : String) : Bool :=
  decide (sprintSortKey a ≤ sprintSortKey b)

/-- Embedding of `populateSprintFilter(sprintNames)` (script.js 81–99): clears the
sprint select, appends one option per name after stably sorting the
names by `sprintSortKey` (JS `Array.prototype.sort` is stable; the
stable sort is modelled by `List.mergeSort`), and sets `selectedIndex`
to the last option when any exists (a cleared select's value is `""`). -/
def populateSprintFilter (sprintNames : List String) : SelectState :=
  let sorted := List.mergeSort sprintNames sprintLe
  { options := sorted.map (fun name => (name, name)),
    selected := sorted.getLast?.getD "" }

/-- Embedding of `populateUserFilter(users = [])` (script.js 116–134): remembers the
select's current value, rebuilds the options as the sentinel
`("overall", "Overall Team")` followed by one option per user, and
restores the remembered value only when it is among the new option
values; otherwise the freshly rebuilt select is left on its first
option, `"overall"`. -/
def populateUserFilter (users : Option (List String)) (userFilter : SelectState) : SelectState :=
  let us := users.getD []
  let currentUser := userFilter.selected
  let opts := ("overall", "Overall Team") :: us.map (fun user => (user, user))
  { options := opts,
    selected := if opts.any (fun opt => opt.1 == currentUser) then currentUser else "overall" }

/-- Reading `options[selectedIndex].text` of a select modelled by its value:
the text of the first option whose value is the selected value (the
script only reads this after `populateUserFilter`, which guarantees the
selected value occurs among the options). -/
def selectedOptionText (s : SelectState) : String :=
  ((s.options.find? (fun opt => opt.1 == s.selected)).map (fun opt => opt.2)).getD ""

/-- Embedding of `plannedHoursData[plannedHoursData.length - 1] || 0` (script.js
148): the last entry of the planned series, with `null`/`undefined`
(and `0` itself, on which `|| 0` also yields `0`) collapsing to `0`. -/
def finalPlannedOf (plannedHoursData : List (Option ℚ)) : ℚ :=
  match plannedHoursData.getLast? with
  | some (some x) => x
  | _ => 0

/-- The ideal burn-up series (script.js 147–149):
`dates.map((_, index) => (dates.length <= 1) ? 0 :
(finalPlanned / (dates.length - 1)) * index)` with
`plannedHoursData = dailyPlannedHours || []`. -/
def idealBurnup (dates : List String) (dailyPlannedHours : Option (List (Option ℚ))) : List ℚ :=
  let plannedHoursData := dailyPlannedHours.getD []
  let finalPlanned := finalPlannedOf plannedHoursData
  (List.range dates.length).map (fun index : ℕ =>
    if dates.length ≤ 1 then 0 else (finalPlanned / ((dates.length : ℚ) - 1)) * (index : ℚ))

/-- Embedding of `Math.max(0, ...series.filter(v => v != null))` (script.js
151–152): the maximum of the non-null entries and `0`. -/
def jsMax0 (series : List (Option ℚ)) : ℚ :=
  (series.filterMap id).foldl max 0

/-- Embedding of `Math.ceil(Math.max(maxPlanned, maxEarned) * 1.05 / 50) * 50`
(script.js 153), the suggested y-axis upper bound.  The source binds it
to the local `yAxisTop` and never reads it again. -/
def yAxisTop (plannedHoursData earnedHours : List (Option ℚ)) : ℚ :=
  ((⌈max (jsMax0 plannedHoursData) (jsMax0 earnedHours) * (21 / 20 : ℚ) / 50⌉ : ℤ) : ℚ) * 50

/-- Embedding of `chartOptions(chartTitle, yAxisLabel)` (script.js 199–220).  Every
property of the returned object literal is carried over; note the y
scale sets `min: 0` and no upper bound. -/
def chartOptions (chartTitle yAxisLabel : String) : ChartOptionsCfg :=
  { responsive := true
    maintainAspectRatio := false
    interactionMode := "index"
    interactionIntersect := false
    title := { display := true, text := chartTitle, color := "#f9fafb",
               font := { size := 18, weight := some "600" } }
    legend := { labelsColor := "#e5e7eb", labelsFontSize := 14 }
    tooltip := { backgroundColor := "rgba(20, 26, 39, 0.8)", titleColor := "#f9fafb",
                 bodyColor := "#e5e7eb", borderColor := "rgba(255, 255, 255, 0.1)",
                 borderWidth := 1, padding := 10, displayColors := true, boxPadding := 4 }
    x := { ticks := { color := "#9ca3af" }, grid := { color := "rgba(255, 255, 255, 0.1)" } }
    y := { type := "linear", position := "left", min := 0, max := none,
           title := { display := true, text := yAxisLabel, color := "#d1d5db",
                      font := { size := 14, weight := some "bold" } },
           ticks := { color := "#9ca3af" }, grid := { color := "rgba(255, 255, 255, 0.1)" } } }

/-- The `data: { labels, datasets }` and `options` payload built by
`drawChart` (script.js 155–171) once the bundle was found. -/
def burnupChartConfig (dates : List String) (chartData : SeriesBundle)
    (chartTitle : String) (showIdeal : Bool) : ChartConfig :=
  let plannedHoursData := chartData.dailyPlannedHours.getD []
  let idealBurnupData := idealBurnup dates chartData.dailyPlannedHours
  let datasets :=
    [ { label := "Earned Hours", data := chartData.earnedHours, borderColor := "#38bdf8",
        backgroundColor := some "rgba(56, 189, 248, 0.2)", fill := true,
        tension := some (1 / 10) },
      { label := "Actual Cost", data := chartData.actualCost, borderColor := "#f43f5e",
        fill := false, tension := some (1 / 10) },
      { label := "Total Planned Hours", data := plannedHoursData, borderColor := "#34d399",
        borderDash := some [5, 5], fill := false, pointRadius := some 0,
        steppped := true } ] ++
    (if showIdeal then
      [ { label := "Ideal Burn-up", data := idealBurnupData.map some, borderColor := "#facc15",
          borderDash := some [5, 5], fill := false, pointRadius := some 0 } ]
     else ([] : List DatasetCfg))
  { type := "line", labels := dates, datasets := datasets,
    options := chartOptions chartTitle "Hours" }

/-- Embedding of `drawChart(sprintData, userKey, chartTitle, showIdeal)` (script.js
136–172).  When `sprintData?.charts?.[userKey]` is missing, the
existing chart (if any) is only `clear()`ed — never destroyed — a
`console.error` is emitted and the call returns.  Otherwise the source
computes the derived series (including the never-used `yAxisTop`
local), `destroy()`s the previous instance if one exists, and binds a
new instance to the canvas. -/
def drawChart (st : DashState) (sprintData : SprintRecord) (userKey : String)
    (chartTitle : String) (showIdeal : Bool) : DashState × List Effect :=
  match jsGet sprintData.charts userKey with
  | none =>
      (match st.burnupChart with
       | some c =>
           ({ st with burnupChart := some { c with canvasCleared := true } },
            [Effect.clearChart, Effect.consoleError ("Chart data not found for user: " ++ userKey)])
       | none => (st, [Effect.consoleError ("Chart data not found for user: " ++ userKey)]))
  | some chartData =>
      let cfg := burnupChartConfig sprintData.dates chartData chartTitle showIdeal
      let destroyEffects : List Effect :=
        match st.burnupChart with
        | some _ => [Effect.destroyChart]
        | none => []
      ({ st with burnupChart := some { config := cfg } },
       destroyEffects ++ [Effect.createChart cfg])

/-- Embedding of `drawEvPvChart(evPvData, chartTitle)` (script.js 174–197).  When
`evPvData?.charts?.overall` is missing the existing chart (if any) is
`destroy()`ed (note: `state.burnupChart` keeps referencing the
destroyed instance — the source does not null it) and a `console.error`
is emitted; otherwise the previous instance is destroyed and the EV/PV
line chart is created. -/
def drawEvPvChart (st : DashState) (evPvData : SprintRecord) (chartTitle : String) :
    DashState × List Effect :=
  match jsGet evPvData.charts "overall" with
  | none =>
      (match st.burnupChart with
       | some c =>
           ({ st with burnupChart := some { c with destroyed := true } },
            [Effect.destroyChart, Effect.consoleError "EV/PV data not found."])
       | none => (st, [Effect.consoleError "EV/PV data not found."]))
  | some bundle =>
      let cfg : ChartConfig :=
        { type := "line", labels := evPvData.dates,
          datasets :=
            [ { label := "Earned Value (EV)", data := bundle.earnedValue,
                borderColor := "#38bdf8", backgroundColor := some "rgba(56, 189, 248, 0.2)",
                fill := true, tension := some (1 / 10) },
              { label := "Planned Value (PV)", data := bundle.plannedValue,
                borderColor := "#34d399", fill := false, tension := some (1 / 10) } ],
          options := chartOptions chartTitle "Cumulative Story Points" }
      let destroyEffects : List Effect :=
        match st.burnupChart with
        | some _ => [Effect.destroyChart]
        | none => []
      ({ st with burnupChart := some { config := cfg } },
       destroyEffects ++ [Effect.createChart cfg])

/-- Embedding of `updateSprintDashboard()` (script.js 101–114).  The guard
`!selectedSprint || !state.fullData[selectedSprint]` clears (not
destroys) any existing chart, logs, and returns; otherwise the user
filter is repopulated from the record's `users`, and `drawChart` is
invoked for the then-selected user with the burn-up title and the
ideal overlay enabled. -/
def updateSprintDashboard (st : DashState) : DashState × List Effect :=
  let selectedSprint := st.sprintFilter.selected
  match (if selectedSprint == "" then none else jsGet st.fullData selectedSprint) with
  | none =>
      (match st.burnupChart with
       | some c =>
           ({ st with burnupChart := some { c with canvasCleared := true } },
            [Effect.clearChart,
             Effect.consoleError ("Data for sprint \"" ++ selectedSprint ++ "\" not found.")])
       | none =>
           (st, [Effect.consoleError ("Data for sprint \"" ++ selectedSprint ++ "\" not found.")]))
  | some sprintData =>
      let st1 := { st with userFilter := populateUserFilter sprintData.users st.userFilter }
      let selectedUser := st1.userFilter.selected
      let chartTitle :=
        "Burn-Up: " ++ st1.sprintFilter.selected ++ " - " ++ selectedOptionText st1.userFilter
      drawChart st1 sprintData selectedUser chartTitle true

/-- Embedding of `handleViewChange()` (script.js 66–79).  Hides the sprint controls;
in `ev_pv` mode it draws the EV/PV chart only when the reserved
`"EV/PV"` record exists — the source has no else branch there, so an
absent record draws nothing and logs nothing; in any other mode it
reveals the controls and runs `updateSprintDashboard`. -/
def handleViewChange (st : DashState) : DashState × List Effect :=
  let selectedView := st.viewSelector
  let st1 := { st with sprintControlsDisplay := "none" }
  if selectedView == "ev_pv" then
    match jsGet st1.fullData "EV/PV" with
    | some evPvRecord =>
        drawEvPvChart st1 evPvRecord "Performance: Earned Value vs. Planned Value (All Time)"
    | none => (st1, [])
  else
    let st2 := { st1 with sprintControlsDisplay := "flex" }
    updateSprintDashboard st2

/-- What `initializeDashboard`'s `fetch` of `data.json` produced: a
non-success HTTP response, or a parsed document. -/
inductive FetchOutcome where
  | notOk : FetchOutcome
  | ok : List (String × SprintRecord) → FetchOutcome
  deriving DecidableEq, Repr

/-- The error paragraph the catch block writes into the chart
container. -/
def errorHtml (msg : String) : String :=
  "<p style=\"color: #f43f5e; text-align: center;\">" ++ msg ++ "</p>"

/-- The catch block of `initializeDashboard` (script.js 60–63):
`console.error('Error initializing dashboard:', error)` and replacement
of the chart container's innerHTML with the error paragraph. -/
def initFailure (st : DashState) (msg : String) : DashState × List Effect :=
  ({ st with chartContainerHTML := some (errorHtml msg) },
   [Effect.consoleError ("Error initializing dashboard: " ++ msg),
    Effect.setContainerHTML (errorHtml msg)])

/-- Embedding of `initializeDashboard()` (script.js 41–64).  A non-success fetch
throws into the catch block; a fetched document is stored in
`state.fullData`, and an empty document throws into the catch block
before any filter is populated.  Otherwise the sprint filter is
populated from the keys other than the reserved `"All Time"` and
`"EV/PV"` names and `handleViewChange` runs once (the event-listener
registrations have no further observable action here). -/
def initializeDashboard (st : DashState) (fetch : FetchOutcome) : DashState × List Effect :=
  match fetch with
  | FetchOutcome.notOk =>
      initFailure st "data.json not found. Please run the Python script first."
  | FetchOutcome.ok data =>
      let st1 := { st with fullData := data }
      if (data.map (fun p => p.1)).length == 0 then
        initFailure st1 "data.json is empty or invalid. Please run the Python script to generate data."
      else
        let sprintNames :=
          (data.map (fun p => p.1)).filter (fun name => name != "All Time" && name != "EV/PV")
        let st2 := { st1 with sprintFilter := populateSprintFilter sprintNames }
        handleViewChange st2

/-- The number of live (created and not yet destroyed) chart-library
instances referenced by the page state: `state.burnupChart` holds at
most one, and it counts only while not destroyed. -/
def chartLive (st : DashState) : ℤ :=
  match st.burnupChart with
  | some c => if c.destroyed then 0 else 1
  | none => 0

/-- The change an effect makes to the number of live chart instances
bound to the canvas. -/
def liveDelta : Effect → ℤ
  | Effect.createChart _ => 1
  | Effect.destroyChart => -1
  | _ => 0

/-- The number of live chart instances after an effect trace, starting
from `n` live instances. -/
def liveAfter (n : ℤ) (es : List Effect) : ℤ :=
  n + (es.map liveDelta).sum

/-! ## Helper lemmas -/

/-- The last planned entry of an all-numeric planned series is its last
element, `0` when the series is empty. -/
lemma finalPlannedOf_map_some (planned : List ℚ) :
    finalPlannedOf (planned.map some) = planned.getLast?.getD 0 := by
  unfold finalPlannedOf
  rw [List.getLast?_map]
  cases planned.getLast? with
  | none => rfl
  | some x => rfl

/-! ## Claims -/

/-- C1: for every `dates` sequence of length N and every
`dailyPlannedHours` sequence, the ideal burn-up series has length N,
and its value at index i is 0 whenever N ≤ 1 and otherwise
`(lastPlannedValue / (N - 1)) * i`, where `lastPlannedValue` is the
final element of `dailyPlannedHours` (0 when it is empty). -/
theorem C1_ideal_burnup_series (dates : List String) (planned : List ℚ) :
    (idealBurnup dates (some (planned.map some))).length = dates.length ∧
    idealBurnup dates (some (planned.map some)) =
      (List.range dates.length).map (fun i : ℕ =>
        if dates.length ≤ 1 then 0
        else (planned.getLast?.getD 0 / ((dates.length : ℚ) - 1)) * (i : ℚ)) := by
  have h : idealBurnup dates (some (planned.map some)) =
      (List.range dates.length).map (fun i : ℕ =>
        if dates.length ≤ 1 then 0
        else (planned.getLast?.getD 0 / ((dates.length : ℚ) - 1)) * (i : ℚ)) := by
    simp only [idealBurnup, Option.getD_some, finalPlannedOf_map_some]
  exact ⟨by rw [h, List.length_map, List.length_range], h⟩

/-- C6: `populateUserFilter` always yields the sentinel
`("overall", "Overall Team")` first, then one option per user in the
given order (an absent or empty `users` sequence leaves only the
sentinel); the previous selection is kept exactly when it is still
among the new option values and otherwise falls back to the sentinel;
the control is never empty. -/
theorem C6_user_filter_population (users : Option (List String)) (f : SelectState) :
    (populateUserFilter users f).options =
      ("overall", "Overall Team") :: (users.getD []).map (fun u => (u, u)) ∧
    (populateUserFilter users f).selected =
      (if f.selected ∈ ((populateUserFilter users f).options.map Prod.fst)
       then f.selected else "overall") ∧
    (populateUserFilter users f).options ≠ [] := by
  have key :
      ((("overall", "Overall Team") :: (users.getD []).map (fun u => (u, u))).any
          (fun opt => opt.1 == f.selected) = true) ↔
        f.selected ∈ ((("overall", "Overall Team") ::
          (users.getD []).map (fun u => (u, u))).map Prod.fst) := by
    constructor
    · intro h
      obtain ⟨opt, hmem, hval⟩ := List.any_eq_true.mp h
      exact List.mem_map.mpr ⟨opt, hmem, (beq_iff_eq.mp hval)⟩
    · intro h
      obtain ⟨opt, hmem, hval⟩ := List.mem_map.mp h
      exact List.any_eq_true.mpr ⟨opt, hmem, beq_iff_eq.mpr hval⟩
  refine ⟨rfl, ?_, by simp [populateUserFilter]⟩
  simp only [populateUserFilter]
  by_cases h : f.selected ∈ ((("overall", "Overall Team") ::
      (users.getD []).map (fun u => (u, u))).map Prod.fst)
  · rw [if_pos (key.mpr h), if_pos h]
  · rw [if_neg (fun hh => h (key.mp hh)), if_neg h]

/-- The DataEmpty message of the initialization error taxonomy, thrown
at script.js 48. -/
def dataEmptyMsg : String :=
  "data.json is empty or invalid. Please run the Python script to generate data."

/-- C8: a fetched document with no entries makes initialization
short-circuit to the DataEmpty user-visible error: the chart container
shows the error paragraph, and neither the sprint filter nor the user
filter is touched — no partial dashboard state. -/
theorem C8_empty_dataset_short_circuit (st : DashState) :
    (initializeDashboard st (FetchOutcome.ok [])).1.sprintFilter = st.sprintFilter ∧
    (initializeDashboard st (FetchOutcome.ok [])).1.userFilter = st.userFilter ∧
    (initializeDashboard st (FetchOutcome.ok [])).1.chartContainerHTML =
      some (errorHtml dataEmptyMsg) ∧
    Effect.setContainerHTML (errorHtml dataEmptyMsg) ∈
      (initializeDashboard st (FetchOutcome.ok [])).2 ∧
    (∀ cfg, Effect.createChart cfg ∉ (initializeDashboard st (FetchOutcome.ok [])).2) := by
  refine ⟨rfl, rfl, rfl, ?_, ?_⟩
  · simp [initializeDashboard, initFailure, dataEmptyMsg]
  · intro cfg
    simp [initializeDashboard, initFailure]

/-- A sprint-record bundle used as concrete test data. -/
def sampleBundle : SeriesBundle :=
  { earnedHours := [some 0, some 30, some 95],
    actualCost := [some 0, some 40, some 90],
    dailyPlannedHours := some [some 10, some 40, some 100] }

/-- A sprint record used as concrete test data. -/
def sampleRecord : SprintRecord :=
  { dates := ["2025-05-19", "2025-05-20", "2025-05-21"],
    users := some ["alice"],
    charts := [("overall", sampleBundle), ("alice", sampleBundle)] }

/-- A dashboard state whose selected sprint key has no record in the
dataset. -/
def missingSprintState : DashState :=
  { burnupChart := none,
    fullData := [("Sprint 1", sampleRecord)],
    viewSelector := "sprint",
    sprintFilter := { options := [("Sprint 99", "Sprint 99")], selected := "Sprint 99" },
    userFilter := { options := [("overall", "Overall Team")], selected := "overall" } }

/-- C10: when the selected sprint key has no record,
`updateSprintDashboard` returns before repopulating the user selector —
the user filter's options and selection, the dataset, and the sprint
filter are all left exactly as they were. -/
theorem C10_missing_sprint_frame (st : DashState)
    (h : jsGet st.fullData st.sprintFilter.selected = none) :
    (updateSprintDashboard st).1.userFilter = st.userFilter ∧
    (updateSprintDashboard st).1.fullData = st.fullData ∧
    (updateSprintDashboard st).1.sprintFilter = st.sprintFilter := by
  have hguard :
      (if st.sprintFilter.selected == "" then none
       else jsGet st.fullData st.sprintFilter.selected) = none := by
    split
    · rfl
    · exact h
  simp only [updateSprintDashboard]
  rw [hguard]
  cases st.burnupChart <;> exact ⟨rfl, rfl, rfl⟩

/-- Witness for C10 at a concrete state: the selected sprint
`"Sprint 99"` has no record, and the user filter, dataset and sprint
filter are unchanged. -/
theorem C10_missing_sprint_frame_witness :
    jsGet missingSprintState.fullData missingSprintState.sprintFilter.selected = none ∧
    ((updateSprintDashboard missingSprintState).1.userFilter = missingSprintState.userFilter ∧
     (updateSprintDashboard missingSprintState).1.fullData = missingSprintState.fullData ∧
     (updateSprintDashboard missingSprintState).1.sprintFilter =
       missingSprintState.sprintFilter) :=
  ⟨by decide, C10_missing_sprint_frame missingSprintState (by decide)⟩

/-- The sprint comparator is transitive. -/
lemma sprintLe_trans : ∀ a b c : String, sprintLe a b → sprintLe b c → sprintLe a c := by
  intro a b c hab hbc
  simp only [sprintLe, decide_eq_true_eq] at hab hbc ⊢
  omega

/-- The sprint comparator is total. -/
lemma sprintLe_total : ∀ a b : String, sprintLe a b || sprintLe b a := by
  intro a b
  simp only [sprintLe, Bool.or_eq_true, decide_eq_true_eq]
  omega

/-- Stability of the modelled sort: the elements having any fixed sort
key keep their original relative order. -/
lemma mergeSort_filter_key (names : List String) (k : Int) :
    (List.mergeSort names sprintLe).filter (fun n => sprintSortKey n == k) =
      names.filter (fun n => sprintSortKey n == k) := by
  have hpw : (names.filter (fun n => sprintSortKey n == k)).Pairwise
      (fun a b => sprintLe a b) := by
    apply List.pairwise_of_forall_mem_list
    intro a ha b hb
    have hak := (List.mem_filter.mp ha).2
    have hbk := (List.mem_filter.mp hb).2
    simp only [beq_iff_eq] at hak hbk
    simp [sprintLe, hak, hbk]
  have h1 : List.Sublist (names.filter (fun n => sprintSortKey n == k))
      (List.mergeSort names sprintLe) :=
    List.sublist_mergeSort sprintLe_trans sprintLe_total hpw (List.filter_sublist names)
  have h2 : List.Sublist (names.filter (fun n => sprintSortKey n == k))
      ((List.mergeSort names sprintLe).filter (fun n => sprintSortKey n == k)) := by
    have hf := h1.filter (fun n => sprintSortKey n == k)
    rwa [List.filter_eq_self.mpr (fun a ha => (List.mem_filter.mp ha).2)] at hf
  have h3 : List.Perm ((List.mergeSort names sprintLe).filter (fun n => sprintSortKey n == k))
      (names.filter (fun n => sprintSortKey n == k)) :=
    (List.mergeSort_perm names sprintLe).filter _
  exact (h2.eq_of_length h3.length_eq.symm).symm

/-- C3: `populateSprintFilter` orders the options ascending by the
integer value of the first digit run of each name (−1 when absent),
keeps insertion order on ties (the filtered sub-sequence at each key is
unchanged), and default-selects the last option of the resulting
order. -/
theorem C3_sprint_filter_order (names : List String) :
    ((populateSprintFilter names).options.map Prod.fst).Pairwise
      (fun a b => sprintSortKey a ≤ sprintSortKey b) ∧
    (∀ k : Int, (((populateSprintFilter names).options.map Prod.fst).filter
        (fun n => sprintSortKey n == k)) = names.filter (fun n => sprintSortKey n == k)) ∧
    (names ≠ [] →
      ((populateSprintFilter names).options.map Prod.fst).getLast? =
        some (populateSprintFilter names).selected) := by
  have hmapfst : (populateSprintFilter names).options.map Prod.fst =
      List.mergeSort names sprintLe := by
    show ((List.mergeSort names sprintLe).map (fun name => (name, name))).map Prod.fst =
      List.mergeSort names sprintLe
    rw [List.map_map]
    have hc : (Prod.fst ∘ fun name : String => (name, name)) = id := by
      funext n
      rfl
    rw [hc, List.map_id]
  refine ⟨?_, ?_, ?_⟩
  · rw [hmapfst]
    exact (List.sorted_mergeSort sprintLe_trans sprintLe_total names).imp
      (fun h => by simpa [sprintLe] using h)
  · intro k
    rw [hmapfst]
    exact mergeSort_filter_key names k
  · intro hne
    rw [hmapfst]
    have hnil : List.mergeSort names sprintLe ≠ [] := by
      intro hcontra
      apply hne
      have hlen : (List.mergeSort names sprintLe).length = names.length :=
        (List.mergeSort_perm names sprintLe).length_eq
      rw [hcontra] at hlen
      exact List.length_eq_zero.mp hlen.symm
    cases hgl : (List.mergeSort names sprintLe).getLast? with
    | none => exact absurd (List.getLast?_eq_none_iff.mp hgl) hnil
    | some x => simp [populateSprintFilter, hgl]

/-- Witness for C3 at the spec's example: `["Sprint 2", "Sprint 10",
"Sprint 1"]` is nonempty and the default selection is the last sorted
option. -/
theorem C3_sprint_filter_order_witness :
    (["Sprint 2", "Sprint 10", "Sprint 1"] : List String) ≠ [] ∧
    ((populateSprintFilter ["Sprint 2", "Sprint 10", "Sprint 1"]).options.map Prod.fst).getLast? =
      some (populateSprintFilter ["Sprint 2", "Sprint 10", "Sprint 1"]).selected :=
  ⟨by decide, (C3_sprint_filter_order ["Sprint 2", "Sprint 10", "Sprint 1"]).2.2 (by decide)⟩

/-- A dashboard state about to render the sample sprint record. -/
def renderReadyState : DashState :=
  { burnupChart := none,
    fullData := [("Sprint 1", sampleRecord)],
    viewSelector := "sprint",
    sprintFilter := { options := [("Sprint 1", "Sprint 1")], selected := "Sprint 1" },
    userFilter := { options := [("overall", "Overall Team")], selected := "overall" } }

/-- C4: the suggested y-axis upper bound is computed exactly as
specified — at planned maximum 40 and earned maximum 95 it is 100, the
smallest multiple of 50 at or above 1.05 · 95 = 99.75 — but the chart
options never receive it: every options object built by `chartOptions`
carries no y-axis upper bound (`max` is absent), and the configuration
a burn-up render hands to the chart library therefore leaves the y-axis
unbounded above (the source binds the bound to the local `yAxisTop` at
script.js 153 and never uses it). -/
theorem C4_yaxis_bound_computed_but_unused :
    yAxisTop [some 10, some 40] [some 30, some 95] = 100 ∧
    ((95 : ℚ) * (21 / 20) ≤ 100 ∧ ¬((95 : ℚ) * (21 / 20) ≤ 50)) ∧
    (∀ t l : String, (chartOptions t l).y.max = none) ∧
    ((drawChart renderReadyState sampleRecord "overall" "T" true).1.burnupChart.map
      (fun c => c.config.options.y.max)) = some none := by
  refine ⟨?_, by norm_num, fun t l => rfl, rfl⟩
  show ((⌈max (jsMax0 [some 10, some 40]) (jsMax0 [some 30, some 95]) * (21 / 20 : ℚ) / 50⌉ : ℤ) : ℚ) * 50 = 100
  have h1 : jsMax0 [some 10, some 40] = 40 := by
    simp [jsMax0]
    norm_num
  have h2 : jsMax0 [some 30, some 95] = 95 := by
    simp [jsMax0]
    norm_num
  rw [h1, h2]
  have h3 : max (40 : ℚ) 95 * (21 / 20) / 50 = 399 / 200 := by
    norm_num
  rw [h3]
  have h4 : (⌈(399/200 : ℚ)⌉ : ℤ) = 2 := by
    rw [Int.ceil_eq_iff]
    constructor <;> norm_num
  rw [h4]
  norm_num

/-- A chart configuration used as concrete test data. -/
def sampleConfig : ChartConfig :=
  burnupChartConfig sampleRecord.dates sampleBundle "Burn-Up: Sprint 1 - Overall Team" true

/-- A dashboard state holding a live chart while its selected sprint is
absent from the dataset. -/
def staleChartState : DashState :=
  { burnupChart := some { config := sampleConfig },
    fullData := [("Sprint 1", sampleRecord)],
    viewSelector := "sprint",
    sprintFilter := { options := [("Sprint 99", "Sprint 99")], selected := "Sprint 99" },
    userFilter := { options := [("overall", "Overall Team")], selected := "overall" } }

/-- C2 counterexample: with a live chart bound and the selected sprint
`"Sprint 99"` absent from the dataset, `updateSprintDashboard` does not
dispose the existing chart instance — it survives undestroyed
(`destroyed` stays `false`; the source only calls `clear()`), and the
effect trace is a canvas clear plus a `console.error`, with no destroy
effect. -/
theorem C2_clear_not_dispose_counterexample :
    (updateSprintDashboard staleChartState).1.burnupChart.map ChartInstance.destroyed =
      some false ∧
    (updateSprintDashboard staleChartState).2 =
      [Effect.clearChart,
       Effect.consoleError "Data for sprint \"Sprint 99\" not found."] :=
  ⟨rfl, rfl⟩

/-- C2 (amended): whenever the selected sprint key has no record, or
the selected user key has no bundle in the record's charts mapping, the
render path clears the canvas of any existing chart instance without
destroying it (the instance, including its configuration and its
not-destroyed status, survives), logs the missing-data condition to
`console.error`, constructs no new chart, destroys nothing, and returns
normally to the caller. -/
theorem C2_missing_selection_clears_and_logs :
    (∀ st : DashState, jsGet st.fullData st.sprintFilter.selected = none →
      (updateSprintDashboard st).1.burnupChart.map ChartInstance.config =
        st.burnupChart.map ChartInstance.config ∧
      (updateSprintDashboard st).1.burnupChart.map ChartInstance.destroyed =
        st.burnupChart.map ChartInstance.destroyed ∧
      (∃ msg, Effect.consoleError msg ∈ (updateSprintDashboard st).2) ∧
      Effect.destroyChart ∉ (updateSprintDashboard st).2 ∧
      (∀ cfg, Effect.createChart cfg ∉ (updateSprintDashboard st).2)) ∧
    (∀ (st : DashState) (sprintData : SprintRecord) (userKey chartTitle : String)
        (showIdeal : Bool), jsGet sprintData.charts userKey = none →
      (drawChart st sprintData userKey chartTitle showIdeal).1.burnupChart.map
          ChartInstance.config = st.burnupChart.map ChartInstance.config ∧
      (drawChart st sprintData userKey chartTitle showIdeal).1.burnupChart.map
          ChartInstance.destroyed = st.burnupChart.map ChartInstance.destroyed ∧
      (∃ msg, Effect.consoleError msg ∈ (drawChart st sprintData userKey chartTitle showIdeal).2) ∧
      Effect.destroyChart ∉ (drawChart st sprintData userKey chartTitle showIdeal).2 ∧
      (∀ cfg, Effect.createChart cfg ∉ (drawChart st sprintData userKey chartTitle showIdeal).2)) := by
  constructor
  · intro st h
    have hguard :
        (if st.sprintFilter.selected == "" then none
         else jsGet st.fullData st.sprintFilter.selected) = none := by
      split
      · rfl
      · exact h
    simp only [updateSprintDashboard]
    rw [hguard]
    cases hc : st.burnupChart with
    | none =>
        exact ⟨by simp [hc], by simp [hc],
          ⟨"Data for sprint \"" ++ st.sprintFilter.selected ++ "\" not found.", by simp⟩,
          by simp, fun cfg => by simp⟩
    | some c =>
        exact ⟨by simp [hc], by simp [hc],
          ⟨"Data for sprint \"" ++ st.sprintFilter.selected ++ "\" not found.", by simp⟩,
          by simp, fun cfg => by simp⟩
  · intro st sprintData userKey chartTitle showIdeal h
    simp only [drawChart]
    rw [h]
    cases hc : st.burnupChart with
    | none =>
        exact ⟨by simp [hc], by simp [hc],
          ⟨"Chart data not found for user: " ++ userKey, by simp⟩,
          by simp, fun cfg => by simp⟩
    | some c =>
        exact ⟨by simp [hc], by simp [hc],
          ⟨"Chart data not found for user: " ++ userKey, by simp⟩,
          by simp, fun cfg => by simp⟩

/-- Witness for C2 (amended): the two missing-selection hypotheses hold
at concrete inputs, and the call logged the condition. -/
theorem C2_missing_selection_clears_and_logs_witness :
    jsGet staleChartState.fullData staleChartState.sprintFilter.selected = none ∧
    jsGet sampleRecord.charts "bob" = none ∧
    (∃ msg, Effect.consoleError msg ∈ (updateSprintDashboard staleChartState).2) ∧
    (∃ msg, Effect.consoleError msg ∈
      (drawChart staleChartState sampleRecord "bob" "T" true).2) :=
  ⟨rfl, rfl,
   (C2_missing_selection_clears_and_logs.1 staleChartState rfl).2.2.1,
   (C2_missing_selection_clears_and_logs.2 staleChartState sampleRecord "bob" "T" true rfl).2.2.1⟩

/-- A dashboard state in EV/PV view whose dataset lacks the reserved
"EV/PV" key. -/
def noEvPvState : DashState :=
  { burnupChart := none,
    fullData := [("Sprint 1", sampleRecord)],
    viewSelector := "ev_pv",
    sprintFilter := { options := [("Sprint 1", "Sprint 1")], selected := "Sprint 1" },
    userFilter := { options := [("overall", "Overall Team")], selected := "overall" } }

/-- C5 counterexample: with no `"EV/PV"` key in the dataset, selecting
the EV/PV view draws no chart — but contrary to the claim it logs
nothing: the effect trace is empty (zero `console.error` effects), and
the only state change is hiding the sprint controls. -/
theorem C5_no_log_counterexample :
    (handleViewChange noEvPvState).2 = [] ∧
    (handleViewChange noEvPvState).2.countP (fun e =>
      match e with
      | Effect.consoleError _ => true
      | _ => false) = 0 ∧
    (handleViewChange noEvPvState).1 =
      { noEvPvState with sprintControlsDisplay := "none" } :=
  ⟨rfl, rfl, rfl⟩

/-- C5 (amended): for every dataset lacking the reserved `"EV/PV"` key,
selecting the EV/PV view mode draws no chart and leaves the sprint
view's internal state unaffected (only the sprint-controls display is
hidden) — but the missing-record condition is NOT logged: the call
produces no effects at all (the source's `if` at script.js 71 has no
else branch; `console.error` fires only when the record exists but
lacks an `overall` bundle). -/
theorem C5_missing_evpv_draws_nothing_silently (st : DashState)
    (hview : st.viewSelector = "ev_pv")
    (hrec : jsGet st.fullData "EV/PV" = none) :
    handleViewChange st = ({ st with sprintControlsDisplay := "none" }, []) := by
  simp only [handleViewChange, hview, hrec]
  rfl

/-- Witness for C5 (amended) at a concrete state. -/
theorem C5_missing_evpv_draws_nothing_silently_witness :
    noEvPvState.viewSelector = "ev_pv" ∧
    jsGet noEvPvState.fullData "EV/PV" = none ∧
    handleViewChange noEvPvState = ({ noEvPvState with sprintControlsDisplay := "none" }, []) :=
  ⟨rfl, rfl, C5_missing_evpv_draws_nothing_silently noEvPvState rfl rfl⟩

/-- The page never holds more than one live chart reference. -/
lemma chartLive_le_one (st : DashState) : chartLive st ≤ 1 := by
  unfold chartLive
  split
  · split <;> norm_num
  · norm_num

/-- Prefix bound for a lone `console.error` trace. -/
lemma liveBound_err (n0 : ℤ) (h : n0 ≤ 1) (m : String) (n : ℕ) :
    liveAfter n0 ([Effect.consoleError m].take n) ≤ 1 := by
  match n with
  | 0 => simpa [liveAfter] using h
  | (k + 1) => simpa [liveAfter, liveDelta] using h

/-- Prefix bound for a clear-then-log trace. -/
lemma liveBound_clear_err (n0 : ℤ) (h : n0 ≤ 1) (m : String) (n : ℕ) :
    liveAfter n0 ([Effect.clearChart, Effect.consoleError m].take n) ≤ 1 := by
  match n with
  | 0 => simpa [liveAfter] using h
  | 1 => simpa [liveAfter, liveDelta] using h
  | (k + 2) => simpa [liveAfter, liveDelta] using h

/-- Prefix bound for a destroy-then-log trace. -/
lemma liveBound_destroy_err (n0 : ℤ) (h : n0 ≤ 1) (m : String) (n : ℕ) :
    liveAfter n0 ([Effect.destroyChart, Effect.consoleError m].take n) ≤ 1 := by
  match n with
  | 0 => simpa [liveAfter] using h
  | 1 => simp [liveAfter, liveDelta]; omega
  | (k + 2) => simp [liveAfter, liveDelta]; omega

/-- Prefix bound for a bare creation trace from a chartless state. -/
lemma liveBound_create (n0 : ℤ) (h : n0 ≤ 0) (cfg : ChartConfig) (n : ℕ) :
    liveAfter n0 ([Effect.createChart cfg].take n) ≤ 1 := by
  match n with
  | 0 => simp [liveAfter]; omega
  | (k + 1) => simp [liveAfter, liveDelta]; omega

/-- Prefix bound for a destroy-then-create trace. -/
lemma liveBound_destroy_create (n0 : ℤ) (h : n0 ≤ 1) (cfg : ChartConfig) (n : ℕ) :
    liveAfter n0 ([Effect.destroyChart, Effect.createChart cfg].take n) ≤ 1 := by
  match n with
  | 0 => simpa [liveAfter] using h
  | 1 => simp [liveAfter, liveDelta]; omega
  | (k + 2) => simp [liveAfter, liveDelta]; omega

/-- Every prefix of a `drawChart` effect trace keeps at most one live
chart instance. -/
lemma liveBound_drawChart (st : DashState) (sprintData : SprintRecord)
    (userKey chartTitle : String) (showIdeal : Bool) (n : ℕ) :
    liveAfter (chartLive st) ((drawChart st sprintData userKey chartTitle showIdeal).2.take n) ≤ 1 := by
  unfold drawChart
  cases hg : jsGet sprintData.charts userKey with
  | none =>
      cases hc : st.burnupChart with
      | none => exact liveBound_err _ (chartLive_le_one st) _ n
      | some c => exact liveBound_clear_err _ (chartLive_le_one st) _ n
  | some chartData =>
      cases hc : st.burnupChart with
      | none =>
          have h0 : chartLive st = 0 := by simp [chartLive, hc]
          rw [h0]
          simpa using liveBound_create 0 le_rfl
            (burnupChartConfig sprintData.dates chartData chartTitle showIdeal) n
      | some c =>
          simpa using liveBound_destroy_create (chartLive st) (chartLive_le_one st)
            (burnupChartConfig sprintData.dates chartData chartTitle showIdeal) n

/-- Every prefix of a `drawEvPvChart` effect trace keeps at most one
live chart instance. -/
lemma liveBound_drawEvPvChart (st : DashState) (evPvData : SprintRecord)
    (chartTitle : String) (n : ℕ) :
    liveAfter (chartLive st) ((drawEvPvChart st evPvData chartTitle).2.take n) ≤ 1 := by
  unfold drawEvPvChart
  cases hg : jsGet evPvData.charts "overall" with
  | none =>
      cases hc : st.burnupChart with
      | none => exact liveBound_err _ (chartLive_le_one st) _ n
      | some c => exact liveBound_destroy_err _ (chartLive_le_one st) _ n
  | some bundle =>
      cases hc : st.burnupChart with
      | none =>
          have h0 : chartLive st = 0 := by simp [chartLive, hc]
          rw [h0]
          simpa using liveBound_create 0 le_rfl _ n
      | some c =>
          simpa using liveBound_destroy_create (chartLive st) (chartLive_le_one st) _ n

/-- Every prefix of an `updateSprintDashboard` effect trace keeps at
most one live chart instance. -/
lemma liveBound_updateSprintDashboard (st : DashState) (n : ℕ) :
    liveAfter (chartLive st) ((updateSprintDashboard st).2.take n) ≤ 1 := by
  simp only [updateSprintDashboard]
  cases hg : (if st.sprintFilter.selected == "" then none
              else jsGet st.fullData st.sprintFilter.selected) with
  | none =>
      cases hc : st.burnupChart with
      | none => exact liveBound_err _ (chartLive_le_one st) _ n
      | some c => exact liveBound_clear_err _ (chartLive_le_one st) _ n
  | some sprintData =>
      exact liveBound_drawChart
        { st with userFilter := populateUserFilter sprintData.users st.userFilter }
        sprintData _ _ true n

/-- Every prefix of a `handleViewChange` effect trace keeps at most one
live chart instance. -/
lemma liveBound_handleViewChange (st : DashState) (n : ℕ) :
    liveAfter (chartLive st) ((handleViewChange st).2.take n) ≤ 1 := by
  simp only [handleViewChange]
  cases hv : st.viewSelector == "ev_pv" with
  | true =>
      simp only [if_pos rfl]
      cases hg : jsGet st.fullData "EV/PV" with
      | none => simpa [liveAfter] using chartLive_le_one st
      | some evPvRecord =>
          exact liveBound_drawEvPvChart { st with sprintControlsDisplay := "none" } evPvRecord _ n
  | false =>
      simp only [Bool.false_eq_true, if_false]
      exact liveBound_updateSprintDashboard
        { st with sprintControlsDisplay := "flex" } n

/-- C7: at most one live chart instance exists at any time.  Along
every render path (`drawChart`, `drawEvPvChart`, and their callers
`updateSprintDashboard` and `handleViewChange`), every prefix of the
effect trace keeps the number of live chart instances bound to the
canvas at most one; moreover whenever a render constructs a new chart
while an instance exists, its whole trace is exactly a full destroy
followed by the creation. -/
theorem C7_single_live_chart_instance (st : DashState) (sprintData : SprintRecord)
    (userKey chartTitle : String) (showIdeal : Bool) (n : ℕ) :
    liveAfter (chartLive st)
        ((drawChart st sprintData userKey chartTitle showIdeal).2.take n) ≤ 1 ∧
    liveAfter (chartLive st) ((drawEvPvChart st sprintData chartTitle).2.take n) ≤ 1 ∧
    liveAfter (chartLive st) ((updateSprintDashboard st).2.take n) ≤ 1 ∧
    liveAfter (chartLive st) ((handleViewChange st).2.take n) ≤ 1 ∧
    (∀ cfg, Effect.createChart cfg ∈ (drawChart st sprintData userKey chartTitle showIdeal).2 →
      st.burnupChart.isSome = true →
      (drawChart st sprintData userKey chartTitle showIdeal).2 =
        [Effect.destroyChart, Effect.createChart cfg]) ∧
    (∀ cfg, Effect.createChart cfg ∈ (drawEvPvChart st sprintData chartTitle).2 →
      st.burnupChart.isSome = true →
      (drawEvPvChart st sprintData chartTitle).2 =
        [Effect.destroyChart, Effect.createChart cfg]) := by
  refine ⟨liveBound_drawChart st sprintData userKey chartTitle showIdeal n,
    liveBound_drawEvPvChart st sprintData chartTitle n,
    liveBound_updateSprintDashboard st n,
    liveBound_handleViewChange st n, ?_, ?_⟩
  · intro cfg hmem hsome
    unfold drawChart at hmem ⊢
    cases hg : jsGet sprintData.charts userKey with
    | none =>
        cases hc : st.burnupChart with
        | none => simp [hg, hc] at hmem
        | some c => simp [hg, hc] at hmem
    | some chartData =>
        cases hc : st.burnupChart with
        | none => simp [hc] at hsome
        | some c =>
            simp only [hg, hc] at hmem ⊢
            simp at hmem
            simp [hmem]
  · intro cfg hmem hsome
    unfold drawEvPvChart at hmem ⊢
    cases hg : jsGet sprintData.charts "overall" with
    | none =>
        cases hc : st.burnupChart with
        | none => simp [hg, hc] at hmem
        | some c => simp [hg, hc] at hmem
    | some bundle =>
        cases hc : st.burnupChart with
        | none => simp [hc] at hsome
        | some c =>
            simp only [hg, hc] at hmem ⊢
            simp at hmem
            simp [hmem]

/-- Witness for C7 at a concrete state with a live chart: the burn-up
render constructs a chart and its trace is exactly a destroy followed
by the creation. -/
theorem C7_single_live_chart_instance_witness :
    Effect.createChart (burnupChartConfig sampleRecord.dates sampleBundle "T" true) ∈
      (drawChart staleChartState sampleRecord "overall" "T" true).2 ∧
    staleChartState.burnupChart.isSome = true ∧
    (drawChart staleChartState sampleRecord "overall" "T" true).2 =
      [Effect.destroyChart,
       Effect.createChart (burnupChartConfig sampleRecord.dates sampleBundle "T" true)] := by
  have htr : (drawChart staleChartState sampleRecord "overall" "T" true).2 =
      [Effect.destroyChart,
       Effect.createChart (burnupChartConfig sampleRecord.dates sampleBundle "T" true)] := by
    simp only [drawChart]
    rw [show jsGet sampleRecord.charts "overall" = some sampleBundle from rfl]
    rfl
  have hmem : Effect.createChart (burnupChartConfig sampleRecord.dates sampleBundle "T" true) ∈
      (drawChart staleChartState sampleRecord "overall" "T" true).2 := by
    rw [htr]
    exact List.mem_cons_of_mem _ (List.mem_cons_self _ _)
  exact ⟨hmem, rfl,
    (C7_single_live_chart_instance staleChartState sampleRecord "overall" "T" true 0).2.2.2.2.1
      (burnupChartConfig sampleRecord.dates sampleBundle "T" true) hmem rfl⟩

/-- Repopulating the user filter from the same users is idempotent:
the selection produced by one pass is always among the rebuilt options,
so a second pass keeps it. -/
lemma populateUserFilter_idem (users : Option (List String)) (f : SelectState) :
    populateUserFilter users (populateUserFilter users f) = populateUserFilter users f := by
  simp only [populateUserFilter]
  by_cases h : ((("overall", "Overall Team") :: (users.getD []).map (fun user => (user, user))).any
      (fun opt => opt.1 == f.selected)) = true
  · simp [h]
  · simp [h]

/-- State characterization of `drawChart` when the bundle is missing:
only the canvas-cleared flag of an existing chart changes. -/
lemma drawChart_state_none (st : DashState) (data : SprintRecord) (key t : String) (i : Bool)
    (h : jsGet data.charts key = none) :
    (drawChart st data key t i).1 =
      { st with burnupChart := st.burnupChart.map (fun c => { c with canvasCleared := true }) } := by
  cases st with
  | mk b fd vs scd sf uf ch =>
      unfold drawChart
      rw [h]
      cases b with
      | none => rfl
      | some c => rfl

/-- State characterization of `drawChart` when the bundle is found: the
chart slot holds a fresh instance with the burn-up configuration. -/
lemma drawChart_state_some (st : DashState) (data : SprintRecord) (key t : String) (i : Bool)
    (bundle : SeriesBundle) (h : jsGet data.charts key = some bundle) :
    (drawChart st data key t i).1 =
      { st with burnupChart := some { config := burnupChartConfig data.dates bundle t i } } := by
  unfold drawChart
  rw [h]

/-- State characterization of `updateSprintDashboard` on a missing
sprint record. -/
lemma update_state_none (st : DashState)
    (h : (if st.sprintFilter.selected == "" then none
          else jsGet st.fullData st.sprintFilter.selected) = none) :
    (updateSprintDashboard st).1 =
      { st with burnupChart := st.burnupChart.map (fun c => { c with canvasCleared := true }) } := by
  cases st with
  | mk b fd vs scd sf uf ch =>
      simp only [updateSprintDashboard]
      rw [h]
      cases b with
      | none => rfl
      | some c => rfl

/-- State characterization of `updateSprintDashboard` on a found sprint
record: it repopulates the user filter and delegates to `drawChart`. -/
lemma update_state_some (st : DashState) (sprintData : SprintRecord)
    (h : (if st.sprintFilter.selected == "" then none
          else jsGet st.fullData st.sprintFilter.selected) = some sprintData) :
    (updateSprintDashboard st).1 =
      (drawChart { st with userFilter := populateUserFilter sprintData.users st.userFilter }
        sprintData (populateUserFilter sprintData.users st.userFilter).selected
        ("Burn-Up: " ++ st.sprintFilter.selected ++ " - " ++
          selectedOptionText (populateUserFilter sprintData.users st.userFilter)) true).1 := by
  simp only [updateSprintDashboard]
  rw [h]

/-- Clearing an already-represented clear is idempotent on an optional
chart slot. -/
lemma clear_map_idem (b : Option ChartInstance) :
    (b.map (fun c => { c with canvasCleared := true })).map
        (fun c => { c with canvasCleared := true }) =
      b.map (fun c => { c with canvasCleared := true }) := by
  cases b with
  | none => rfl
  | some c => rfl


/-- Running the sprint render step twice in a row from any state leaves
the state of the first run unchanged. -/
lemma updateSprintDashboard_state_idem (st : DashState) :
    (updateSprintDashboard (updateSprintDashboard st).1).1 = (updateSprintDashboard st).1 := by
  cases hg : (if st.sprintFilter.selected == "" then none
              else jsGet st.fullData st.sprintFilter.selected) with
  | none =>
      have h1 := update_state_none st hg
      have hg1 : (if (updateSprintDashboard st).1.sprintFilter.selected == "" then none
                  else jsGet (updateSprintDashboard st).1.fullData
                    (updateSprintDashboard st).1.sprintFilter.selected) = none := by
        rw [h1]
        exact hg
      rw [update_state_none _ hg1, h1]
      cases hcc : st.burnupChart with
      | none => simp [hcc]
      | some c => simp [hcc]
  | some sprintData =>
      have h1 := update_state_some st sprintData hg
      cases hb : jsGet sprintData.charts
          (populateUserFilter sprintData.users st.userFilter).selected with
      | none =>
          have hs1 : (updateSprintDashboard st).1 =
              { st with
                userFilter := populateUserFilter sprintData.users st.userFilter,
                burnupChart := st.burnupChart.map (fun c => { c with canvasCleared := true }) } := by
            rw [h1, drawChart_state_none _ _ _ _ _ hb]
          have hg1 : (if (updateSprintDashboard st).1.sprintFilter.selected == "" then none
                      else jsGet (updateSprintDashboard st).1.fullData
                        (updateSprintDashboard st).1.sprintFilter.selected) = some sprintData := by
            rw [hs1]
            exact hg
          rw [update_state_some _ sprintData hg1, hs1]
          dsimp only
          rw [populateUserFilter_idem]
          rw [drawChart_state_none _ _ _ _ _ hb]
          cases hcc : st.burnupChart with
          | none => simp [hcc]
          | some c => simp [hcc]
      | some bundle =>
          have hs1 : (updateSprintDashboard st).1 =
              { st with
                userFilter := populateUserFilter sprintData.users st.userFilter,
                burnupChart := some { config := (burnupChartConfig sprintData.dates bundle
                  ("Burn-Up: " ++ st.sprintFilter.selected ++ " - " ++
                    selectedOptionText (populateUserFilter sprintData.users st.userFilter))
                  true) } } := by
            rw [h1, drawChart_state_some _ _ _ _ _ _ hb]
          have hg1 : (if (updateSprintDashboard st).1.sprintFilter.selected == "" then none
                      else jsGet (updateSprintDashboard st).1.fullData
                        (updateSprintDashboard st).1.sprintFilter.selected) = some sprintData := by
            rw [hs1]
            exact hg
          rw [update_state_some _ sprintData hg1, hs1]
          dsimp only
          rw [populateUserFilter_idem]
          rw [drawChart_state_some _ _ _ _ _ _ hb]

/-- C9: with the dataset and the sprint and user selections unchanged,
running the sprint render step twice in a row yields an identical chart
configuration (labels, datasets and options) the second time as the
first — indeed the whole dashboard state after the second run equals
the state after the first. -/
theorem C9_sprint_render_idempotent (st : DashState) :
    (updateSprintDashboard (updateSprintDashboard st).1).1.burnupChart.map
        ChartInstance.config =
      (updateSprintDashboard st).1.burnupChart.map ChartInstance.config ∧
    (updateSprintDashboard (updateSprintDashboard st).1).1 = (updateSprintDashboard st).1 := by
  have h := updateSprintDashboard_state_idem st
  exact ⟨by rw [h], h⟩
